import Mathlib

/-!
A shallow embedding of the execution core of `dash.c`, a Unix command-line
interpreter.  C strings are modelled as `List Char` (the contents up to the
terminating NUL).  The `strtok` standard-library routine, on which the
validators and tokenizers are built, is modelled by `strtokStep`: skip leading
delimiter characters; if nothing remains return `none` (the NULL pointer),
otherwise return the maximal run of non-delimiter characters together with the
remainder of the string after the single delimiter that ended the token (the
saved continuation position of `strtok`).

Process-level behaviour (fork / waitpid / execv / open) is modelled by explicit
state: the pid array of `process` is a `List (Option Int)` where `none` marks a
slot that was never assigned (an indeterminate value in the C program), fork
results are supplied by an oracle `forkRes : Nat → Int` (negative = failure,
as fork returns -1 on failure), and the child-side file-descriptor table is a
`List (Option FdTarget)` indexed by descriptor number, with `open` returning
the lowest `none` slot, as POSIX requires.
-/

namespace Dash

/-- Characters accepted by C `isspace` in the default locale:
space, tab, newline, vertical tab, form feed, carriage return. -/
def cIsSpace (c : Char) : Bool :=
  c = ' ' || c = '\t' || c = '\n' || c = Char.ofNat 11 || c = Char.ofNat 12 ||
    c = Char.ofNat 13

/-- `check_empty_input` (dash.c:257): walk the line; return 0 at the first
non-whitespace character, 1 if every character is whitespace. -/
def check_empty_input : List Char → Int
  | [] => 1
  | c :: rest => if cIsSpace c then check_empty_input rest else 0

/-- The `strchr`-based counting loops of `check_parallel` / `check_redirect`:
number of occurrences of a character in the string. -/
def countChar (c : Char) (s : List Char) : Nat :=
  (s.filter (fun x => x = c)).length

def isDelim (delims : List Char) (c : Char) : Bool := delims.contains c

/-- One call to `strtok`: skip leading delimiters; `none` when the string is
exhausted (strtok returns NULL); otherwise the token (maximal non-delimiter
run) and the rest of the string after the delimiter that ended the token
(empty when the token ran to the end of the string). -/
def strtokStep (delims : List Char) (s : List Char) : Option (List Char × List Char) :=
  match s.dropWhile (isDelim delims) with
  | [] => none
  | c :: t =>
    let s1 := c :: t
    some (s1.takeWhile (fun x => !(isDelim delims x)),
          (s1.dropWhile (fun x => !(isDelim delims x))).drop 1)

/-- Iterated `strtok` with the same delimiter set, i.e. the token lists built
by the while-loops of `parse_input` / `parse_cmds`.  Fuel-based structural
recursion; each step consumes at least one character, so fuel
`s.length + 1` (used by `tokenize`) never runs out. -/
def tokenizeFuel (delims : List Char) : Nat → List Char → List (List Char)
  | 0, _ => []
  | fuel + 1, s =>
    match strtokStep delims s with
    | none => []
    | some (tok, rest) => tok :: tokenizeFuel delims fuel rest

def tokenize (delims : List Char) (s : List Char) : List (List Char) :=
  tokenizeFuel delims (s.length + 1) s

/-- `parse_input` (dash.c:278): split a sub-command into its argument vector on
space, tab, newline and the redirection operator.  The NULL terminator the C
code appends is implicit in the list's end. -/
def parse_input (input : List Char) : List (List Char) :=
  tokenize [' ', '\t', '\n', '>'] input

/-- `parse_cmds` (dash.c:324): split a line into parallel sub-commands on the
ampersand.  `strtok` never produces empty tokens, so adjacent, leading or
trailing ampersands do not contribute entries. -/
def parse_cmds (input : List Char) : List (List Char) :=
  tokenize ['&'] input

/-- `check_parallel` (dash.c:546): count ampersands; if the count is exactly 1,
take the first `strtok` token for delimiter "&" (NB `strtok` skips leading
ampersands) and re-tokenize it by newline; return -1 when either token is
NULL, the count otherwise. -/
def check_parallel (input : List Char) : Int :=
  let cnt := countChar '&' input
  if cnt = 1 then
    match strtokStep ['&'] input with
    | none => -1
    | some (before, _) =>
      match strtokStep ['\n'] before with
      | none => -1
      | some _ => (cnt : Int)
  else (cnt : Int)

/-- The file-counting while-loop at the end of `check_redirect`
(dash.c:524-531): number of further `strtok(NULL, " \t\n")` tokens. -/
def extraFilesFuel (fuel : Nat) (rest : List Char) : Nat :=
  match fuel with
  | 0 => 0
  | fuel + 1 =>
    match strtokStep [' ', '\t', '\n'] rest with
    | none => 0
    | some (_, rest2) => 1 + extraFilesFuel fuel rest2

/-- `check_redirect` (dash.c:496): count redirection operators; if exactly 1,
split into the part before the operator (`strtok(cpy, ">")`) and the rest of
the line up to a newline (`strtok(NULL, "\n")`), returning -1 when either is
NULL; then take the first space-delimited file token and add one to the count
for every further whitespace-delimited token after it. -/
def check_redirect (input : List Char) : Int :=
  let cnt := countChar '>' input
  if cnt = 1 then
    match strtokStep ['>'] input with
    | none => -1
    | some (_, rest1) =>
      match strtokStep ['\n'] rest1 with
      | none => -1
      | some (after, _) =>
        match strtokStep [' '] after with
        | none => (cnt : Int)
        | some (_, rest2) => (cnt : Int) + (extraFilesFuel (rest2.length + 1) rest2 : Int)
  else (cnt : Int)

/-- `count_tokens` (dash.c:722): length of the NULL-terminated array. -/
def count_tokens (arr : List (List Char)) : Nat := arr.length

def built_in_commands : List (List Char) :=
  ["exit".toList, "cd".toList, "path".toList]

/-- `check_command` (dash.c:584): 1 iff the first token equals one of the
built-in command names. -/
def check_command (cmd0 : List Char) : Nat :=
  if built_in_commands.contains cmd0 then 1 else 0

/-- `check_path` (dash.c:606): 1 iff the first token is the `path` builtin. -/
def check_path (cmd0 : List Char) : Nat :=
  if cmd0 = "path".toList then 1 else 0

/-- `dash_path` (dash.c:694): the replacement Search Path Store; the arguments
after the command name, or the empty list when there are none. -/
def dash_path (arrTok : List (List Char)) : List (List Char) :=
  if arrTok.get? 1 = none then [] else arrTok.drop 1

/-- `wait_for_cmds` (dash.c:466): the sequence of pid-array slot values passed
to `waitpid`, one for every index 0 .. parallel_cmd; `none` stands for a slot
that was never assigned (`waitpid` is then called on an indeterminate value). -/
def wait_for_cmds (slots : List (Option Int)) (parallel_cmd : Nat) : List (Option Int) :=
  (List.range (parallel_cmd + 1)).map (fun k => slots.getD k none)

/-- `dash_exit` (dash.c:621): (errors written, whether exit(0) is called). -/
def dash_exit (arrTok : List (List Char)) : Nat × Bool :=
  if count_tokens arrTok - 1 ≠ 0 then (1, false) else (0, true)

/-- `dash_exit2` (dash.c:646): (errors written, whether exit(0) is called, the
slot values waited on before exiting). -/
def dash_exit2 (arrTok : List (List Char)) (parallel_cmd : Nat)
    (slots : List (Option Int)) : Nat × Bool × List (Option Int) :=
  if count_tokens arrTok - 1 ≠ 0 then (1, false, [])
  else (0, true, if parallel_cmd > 0 then wait_for_cmds slots parallel_cmd else [])

/-- `dash_cd` (dash.c:670): number of errors written, with `chdirOk` the
success oracle of the `chdir` system call on the argument directory. -/
def dash_cd (arrTok : List (List Char)) (chdirOk : List Char → Bool) : Nat :=
  let args := count_tokens arrTok - 1
  if args = 0 ∨ args > 1 then 1
  else if chdirOk (arrTok.getD 1 []) then 0 else 1

/-! ## Child side: file descriptors, resolution, execv (dash.c:383-456) -/

inductive FdTarget where
  | terminalIn
  | terminalOut
  | terminalErr
  | file (name : List Char)
deriving Repr, DecidableEq

/-- Descriptor table of the child, indexed by descriptor number;
`none` = closed. -/
abbrev FdTable := List (Option FdTarget)

/-- Standard descriptors 0, 1, 2 at the start of the child. -/
def stdTable : FdTable := [some .terminalIn, some .terminalOut, some .terminalErr]

def closeFd (t : FdTable) (n : Nat) : FdTable := t.set n none

/-- `open`: returns the lowest closed descriptor, as POSIX requires. -/
def openLowest (t : FdTable) (tgt : FdTarget) : Nat × FdTable :=
  match t.findIdx? (fun slot => slot.isNone) with
  | some i => (i, t.set i (some tgt))
  | none => (t.length, t ++ [some tgt])

/-- The redirection setup of the child (dash.c:417-420): close descriptors 1
and 2, then a single `open` of the target file for writing
(O_WRONLY|O_CREAT|O_TRUNC). -/
def redirect_setup (t : FdTable) (fname : List Char) : FdTable :=
  (openLowest (closeFd (closeFd t 1) 2) (.file fname)).2

/-- Setting `arrTok[file_index] = NULL` at the last index (dash.c:428)
truncates the NULL-terminated argument vector by its last entry. -/
def strip_redirect_target (arrTok : List (List Char)) : List (List Char) :=
  arrTok.dropLast

/-- The probe paths `path[j]/command-name` built by the resolution loop
(dash.c:395-400), in store order. -/
def candidates (path : List (List Char)) (cmd0 : List Char) : List (List Char) :=
  path.map (fun d => d ++ ('/' :: cmd0))

/-- The resolution loop (dash.c:395-413): the first candidate, in store order,
for which `access(..., X_OK)` succeeds. -/
def resolve (path : List (List Char)) (cmd0 : List Char)
    (access : List Char → Bool) : Option (List Char) :=
  (candidates path cmd0).find? access

/-- Outcome of the child branch of `exec_command`: errors written (to stderr
or to the redirection file), the exit status when the child terminates without
a successful `execv`, and the (path, argument vector) of a successful `execv`. -/
structure ChildResult where
  errors : Nat
  exitCode : Option Nat
  execed : Option (List Char × List (List Char))
deriving Repr, DecidableEq

/-- The tail of the child after `path_access` is settled (dash.c:414-449):
with redirection, descriptors 1 and 2 are closed before the `open`
(dash.c:417-418), so when the `open` fails the subsequent `write_error` goes
to the already-closed descriptor 2 and is lost — the child exits 1 having
produced zero error lines; a failed `execv` writes one error line to the file
(descriptor 1) and exits 1; a successful `execv` receives the argument vector
with the file name removed; without redirection a failed `execv` writes one
error line to stderr and exits 1. -/
def exec_with_path_access (arrTok : List (List Char)) (redirection : Int)
    (openOk : Bool) (execOk : List Char → Bool) (pa : List Char) : ChildResult :=
  if redirection = 1 then
    if openOk = false then ⟨0, some 1, none⟩
    else if execOk pa then ⟨0, none, some (pa, strip_redirect_target arrTok)⟩
    else ⟨1, some 1, none⟩
  else
    if execOk pa then ⟨0, none, some (pa, arrTok)⟩
    else ⟨1, some 1, none⟩

/-- The child branch of `exec_command` (dash.c:383-456).  `access` is the
execute-access oracle, `openOk` whether `open` of the redirection target
succeeds, `execOk` whether `execv` of a given path succeeds.  An empty Search
Path Store fails immediately; a failed resolution writes the error and exits
only when no redirection is present, otherwise the loop falls through with
`path_access` holding the last candidate and the failure surfaces as a failed
`execv` whose error is written to the redirection file. -/
def exec_child (arrTok : List (List Char)) (path : List (List Char))
    (redirection : Int) (access : List Char → Bool) (openOk : Bool)
    (execOk : List Char → Bool) : ChildResult :=
  if path.length = 0 then ⟨1, some 1, none⟩
  else
    match resolve path arrTok.headI access with
    | some p => exec_with_path_access arrTok redirection openOk execOk p
    | none =>
      if redirection ≠ 1 then ⟨1, some 1, none⟩
      else exec_with_path_access arrTok redirection openOk execOk
        ((candidates path arrTok.headI).getLastD [])

/-! ## Parent side: `process` (dash.c:148-245) -/

/-- Parent-side outcome of `process` on one Command Line.
`pidSlots` is the final pid array (`none` = slot never assigned,
i.e. indeterminate in the C program); `waited` the slot values passed to
`waitpid`, in order; `crashed` marks the undefined behaviour of handing the
NULL entry of the sub-command array to `check_redirect` (`strlen(NULL)`). -/
structure ProcOut where
  errors : Nat
  pidSlots : List (Option Int)
  waited : List (Option Int)
  exited : Bool
  crashed : Bool
  pathOut : List (List Char)
  forks : Nat
deriving Repr, DecidableEq

/-- The per-sub-command loop of `process` (dash.c:214-243) followed by the
final `wait_for_cmds`.  Iterates `i` from 0 through `pc` (the ampersand
count); reading `cmds.get? i = none` models reaching the NULL terminator of
the sub-command array, which the C code passes to `check_redirect`. -/
def run_subcommands (cmds : List (List Char)) (pc : Nat) (forkRes : Nat → Int)
    (chdirOk : List Char → Bool) :
    Nat → Nat → List (Option Int) → Nat → Nat → List (List Char) → ProcOut
  | 0, _, slots, errors, forks, pathCur =>
    ⟨errors, slots, wait_for_cmds slots pc, false, false, pathCur, forks⟩
  | fuel + 1, i, slots, errors, forks, pathCur =>
    match cmds.get? i with
    | none => ⟨errors, slots, [], false, true, pathCur, forks⟩
    | some sub =>
      let r := check_redirect sub
      if 1 < r ∨ r < 0 then
        run_subcommands cmds pc forkRes chdirOk fuel (i + 1) slots (errors + 1) forks pathCur
      else
        match parse_input sub with
        | [] => run_subcommands cmds pc forkRes chdirOk fuel (i + 1) slots errors forks pathCur
        | cmd0 :: restTok =>
          if check_command cmd0 = 1 then
            if check_path cmd0 = 1 then
              run_subcommands cmds pc forkRes chdirOk fuel (i + 1) slots errors forks
                (dash_path (cmd0 :: restTok))
            else if cmd0 = "exit".toList then
              match dash_exit2 (cmd0 :: restTok) pc slots with
              | (e, true, w) => ⟨errors + e, slots, w, true, false, pathCur, forks⟩
              | (e, false, _) =>
                run_subcommands cmds pc forkRes chdirOk fuel (i + 1) slots (errors + e)
                  forks pathCur
            else if cmd0 = "cd".toList then
              run_subcommands cmds pc forkRes chdirOk fuel (i + 1) slots
                (errors + dash_cd (cmd0 :: restTok) chdirOk) forks pathCur
            else
              run_subcommands cmds pc forkRes chdirOk fuel (i + 1) slots errors forks pathCur
          else
            let fr := forkRes forks
            let errors2 := if fr < 0 then errors + 1 else errors
            run_subcommands cmds pc forkRes chdirOk fuel (i + 1) (slots.set i (some fr))
              errors2 (forks + 1) pathCur

/-- `process` (dash.c:148): parent-side processing of one Command Line.
Whitespace-only lines return at once; a -1 from `check_parallel` writes one
error and rejects the line; a positive ampersand count runs the parallel loop
over the sub-command array with a pid array of `pc + 1` unassigned slots; an
ampersand count of 0 validates redirection, dispatches built-ins, or forks
once and waits on the single pid slot. -/
def process (input : List Char) (path : List (List Char)) (forkRes : Nat → Int)
    (chdirOk : List Char → Bool) : ProcOut :=
  if check_empty_input input = 1 then
    ⟨0, [], [], false, false, path, 0⟩
  else
    let pc := check_parallel input
    if pc = -1 then ⟨1, [], [], false, false, path, 0⟩
    else if 0 < pc then
      let pcn := pc.toNat
      run_subcommands (parse_cmds input) pcn forkRes chdirOk (pcn + 1) 0
        (List.replicate (pcn + 1) none) 0 0 path
    else
      let r := check_redirect input
      if 1 < r ∨ r < 0 then ⟨1, [], [], false, false, path, 0⟩
      else
        match parse_input input with
        | [] => ⟨0, [], [], false, true, path, 0⟩
        | cmd0 :: restTok =>
          if check_command cmd0 = 1 then
            if check_path cmd0 = 1 then
              ⟨0, [], [], false, false, dash_path (cmd0 :: restTok), 0⟩
            else if cmd0 = "exit".toList then
              match dash_exit (cmd0 :: restTok) with
              | (e, b) => ⟨e, [], [], b, false, path, 0⟩
            else if cmd0 = "cd".toList then
              ⟨dash_cd (cmd0 :: restTok) chdirOk, [], [], false, false, path, 0⟩
            else ⟨0, [], [], false, false, path, 0⟩
          else
            let fr := forkRes 0
            let e := if fr < 0 then 1 else 0
            ⟨e, [some fr], wait_for_cmds [some fr] 0, false, false, path, 1⟩

/-! ## Helper lemmas -/

theorem check_empty_of_all (input : List Char) (h : input.all cIsSpace = true) :
    check_empty_input input = 1 := by
  induction input with
  | nil => rfl
  | cons c rest ih =>
    simp only [List.all_cons, Bool.and_eq_true] at h
    simp [check_empty_input, h.1, ih h.2]

theorem find?_none_of_all_false {α : Type} (p : α → Bool) (l : List α)
    (h : ∀ a ∈ l, p a = false) : l.find? p = none :=
  List.find?_eq_none.mpr (fun a ha => by simp [h a ha])

theorem getLastD_mem_of_ne_nil {α : Type} (l : List α) (d : α) (h : l ≠ []) :
    l.getLastD d ∈ l := by
  induction l generalizing d with
  | nil => exact absurd rfl h
  | cons a t ih =>
    rw [List.getLastD_cons]
    cases t with
    | nil => simp [List.getLastD_nil]
    | cons b u => exact List.mem_cons_of_mem a (ih a (by simp))

/-! ## Claim theorems -/

/-- Claim C1 (refuted by the code): for the line `& cmd` the separator check
is claimed to return the negative error sentinel, the line to be rejected with
one error and nothing executed.  In the code, `strtok` skips the leading
ampersand, so `check_parallel` returns 1, no error is written, the command
after the separator is forked, and the loop then reads the NULL entry of the
sub-command array (`crashed`). -/
theorem c1_leading_separator_not_rejected :
    check_parallel ("& cmd\n".toList) = 1 ∧
    (process ("& cmd\n".toList) [("/bin".toList)] (fun _ => 7) (fun _ => true)).errors = 0 ∧
    (process ("& cmd\n".toList) [("/bin".toList)] (fun _ => 7) (fun _ => true)).forks = 1 ∧
    (process ("& cmd\n".toList) [("/bin".toList)] (fun _ => 7) (fun _ => true)).crashed = true := by
  decide

/-- Claim C2 (refuted by the code): for `sleep 1 & exit` the built-in exit is
claimed to wait on exactly the Process Records already created and no others.
The code's `wait_for_cmds` iterates over all `parallel_cmd + 1` pid-array
slots; the slot of the exit sub-command itself was never assigned (`none`),
so `waitpid` is also called on an indeterminate value. -/
theorem c2_exit_waits_on_unassigned_slot :
    process ("sleep 1 & exit\n".toList) [("/bin".toList)] (fun _ => 100) (fun _ => true) =
      ⟨0, [some 100, none], [some 100, none], true, false, [("/bin".toList)], 1⟩ := by
  decide

/-- Claim C3 (refuted by the code): the redirection check is claimed to accept
exactly count 0, or count 1 with non-empty content before and after and
exactly one whitespace-delimited token after the operator.  The code accepts
`cmd > ` (zero tokens after the operator: the space-delimited file scan finds
no token and the while loop never runs) and `cmd > f1\tf2` (two tokens: the
first file split uses only the space delimiter, so the tab-separated pair
counts as one), and in the former case still forks a process. -/
theorem c3_redirect_check_accepts_invalid_forms :
    check_redirect ("cmd > \n".toList) = 1 ∧
    check_redirect ("cmd > f1\tf2\n".toList) = 1 ∧
    (process ("cmd > \n".toList) [("/bin".toList)] (fun _ => 9) (fun _ => true)).forks = 1 ∧
    (process ("cmd > \n".toList) [("/bin".toList)] (fun _ => 9) (fun _ => true)).errors = 0 := by
  decide

/-- Claim C4 (refuted by the code): both standard output and standard error
are claimed to be redirected to the target file.  The child closes
descriptors 1 and 2 and then performs a single `open`, which returns the
lowest free descriptor 1; descriptor 2 is left closed, not attached to the
file.  The file name is removed from the argument vector. -/
theorem c4_stderr_left_closed_after_redirect_setup :
    redirect_setup stdTable ("out.txt".toList) =
      [some FdTarget.terminalIn, some (FdTarget.file ("out.txt".toList)), none] ∧
    strip_redirect_target [("ls".toList), ("out.txt".toList)] = [("ls".toList)] := by
  decide

/-- Claim C5 (refuted by the code): every failed resolution is claimed to
produce exactly one error line.  Resolution does probe `directory/command`
in store order, an empty store does fail immediately with one error line, and
a failed resolution without redirection writes exactly one error line; but
when a redirection spec is present and its target cannot be opened, the
open-failure `write_error` goes to descriptor 2, which the child closed just
before the `open`, so that failed resolution produces zero error lines.
The three conjuncts evaluate the child on an unresolvable command: with
redirection and a failed open (zero error lines), without redirection
(one error line), and with an empty store (one error line). -/
theorem c5_failed_open_loses_error_line :
    exec_child [("badcmd".toList)] [("/bin".toList)] 1 (fun _ => false) false
        (fun _ => false) = ⟨0, some 1, none⟩ ∧
    (exec_child [("badcmd".toList)] [("/bin".toList)] 0 (fun _ => false) false
        (fun _ => false)).errors = 1 ∧
    exec_child [("badcmd".toList)] [] 0 (fun _ => false) true (fun _ => false)
        = ⟨1, some 1, none⟩ := by
  decide

/-- Claim C6: every invocation of the `path` built-in replaces the Search
Path Store wholesale with its additional arguments in order (zero arguments
give the empty store), and with an empty store every resolution of any
command fails (the child exits 1 without an `execv`), until `path` is run
again with a non-empty list — demonstrated end-to-end on the lines
`path /a /b` and `path`. -/
theorem c6_path_builtin_replaces_store_wholesale :
    (∀ arrTok : List (List Char), dash_path arrTok = arrTok.drop 1) ∧
    dash_path [("path".toList)] = [] ∧
    (∀ cmd0 access, resolve [] cmd0 access = none) ∧
    (∀ (arrTok : List (List Char)) (redirection : Int) (access : List Char → Bool)
        (openOk : Bool) (execOk : List Char → Bool),
        exec_child arrTok [] redirection access openOk execOk = ⟨1, some 1, none⟩) ∧
    (process ("path /a /b\n".toList) [("/bin".toList)] (fun _ => 3) (fun _ => true)).pathOut
        = [("/a".toList), ("/b".toList)] ∧
    (process ("path\n".toList) [("/bin".toList)] (fun _ => 3) (fun _ => true)).pathOut = [] := by
  refine ⟨?_, by decide, fun _ _ => rfl, fun _ _ _ _ _ => rfl, by decide, by decide⟩
  intro arrTok
  match arrTok with
  | [] => rfl
  | [_] => rfl
  | _ :: b :: _ => simp [dash_path]

/-- Claim C7 (refuted by the code): when fork fails for a sub-command, one
error is written and processing continues, but the claim that the failed
sub-command is never waited on does not hold: `exec_command` returns the
failed fork's -1, `process` stores it in the pid slot, and `wait_for_cmds`
passes it to `waitpid` (where a pid of -1 means "wait for any child"). -/
theorem c7_failed_fork_slot_is_waited_on :
    process ("a & b\n".toList) [("/bin".toList)] (fun n => if n = 0 then 5 else -1)
        (fun _ => true) =
      ⟨1, [some 5, some (-1)], [some 5, some (-1)], false, false, [("/bin".toList)], 2⟩ := by
  decide

/-- Claim C8: a line consisting only of whitespace characters is processed
without executing any command, writing any error, or changing any state. -/
theorem c8_whitespace_only_line_is_noop (input : List Char) (path : List (List Char))
    (forkRes : Nat → Int) (chdirOk : List Char → Bool)
    (h : input.all cIsSpace = true) :
    process input path forkRes chdirOk = ⟨0, [], [], false, false, path, 0⟩ := by
  simp [process, check_empty_of_all input h]

theorem c8_witness :
    process (" \t \n".toList) [("/bin".toList)] (fun _ => 3) (fun _ => true) =
      ⟨0, [], [], false, false, [("/bin".toList)], 0⟩ :=
  c8_whitespace_only_line_is_noop (" \t \n".toList) [("/bin".toList)] (fun _ => 3)
    (fun _ => true) (by decide)

/-- Claim C9 (refuted by the code): for a line passing the separator check
with count n ≥ 1 the split is claimed to yield at least n + 1 entries so the
loop never reads a null sub-command.  For `a && b` the count is 2 but
`strtok` yields only 2 entries (it emits no empty token between adjacent
ampersands), so iteration i = 2 reads the NULL terminator and hands it to
`check_redirect` (`strlen(NULL)` — `crashed`). -/
theorem c9_doubled_separator_under_runs_subcommand_array :
    check_parallel ("a && b\n".toList) = 2 ∧
    (parse_cmds ("a && b\n".toList)).length = 2 ∧
    (process ("a && b\n".toList) [("/bin".toList)] (fun _ => 4) (fun _ => true)).crashed
        = true := by
  decide

/-- Claim C10: the separator check returns the negative sentinel only when
the ampersand count is exactly 1; any line with two or more ampersands gets
back its count unchanged, hence is never rejected at line level. -/
theorem c10_negative_sentinel_only_for_count_one (input : List Char) :
    (2 ≤ countChar '&' input → check_parallel input = (countChar '&' input : Int)) ∧
    (check_parallel input = -1 → countChar '&' input = 1) := by
  constructor
  · intro h2
    have h1 : ¬ (countChar '&' input = 1) := by omega
    simp [check_parallel, h1]
  · intro hneg
    by_contra hne
    simp [check_parallel, hne] at hneg

theorem c10_witness :
    check_parallel ("a&&b\n".toList) = (countChar '&' ("a&&b\n".toList) : Int) :=
  (c10_negative_sentinel_only_for_count_one ("a&&b\n".toList)).1 (by decide)

end Dash
